import Mathlib

/-!
Shallow embedding of the Zendesk migration proxy server (src/server.js).

Remote HTTP behaviour is modelled by explicit response environments; every
wrapped remote call records the request it issues in a trace.  Waiting
(`sleep`) is modelled by recording the wait durations in milliseconds, as the
source computes them (`retryAfter * 1000`, `Math.pow(2, attempt) * 1000`).
-/

/-- Result of one invocation of the `requestFunc` passed to `retryRequest`:
either a successful axios response carrying a value, or a thrown error whose
`error.response?.status` and parsed `retry-after` header are modelled as
`Option Nat` (`none` = absent). -/
inductive RResponse (α : Type) where
  | ok (v : α)
  | err (status : Option Nat) (retryAfter : Option Nat)
deriving DecidableEq, Repr

/-- Observable outcome of `retryRequest`:  `ok` (a `return` of the response),
`thrown` (the `throw error` on the last attempt), or `undef` — the `for` loop
ran out of attempts without returning (only reachable via 429 branches, since
`continue` still executes the loop update `attempt++`), in which case the JS
async function returns `undefined`. -/
inductive RetryOutcome (α : Type) where
  | ok (v : α)
  | thrown (status : Option Nat) (retryAfter : Option Nat)
  | undef
deriving DecidableEq, Repr

/-- Full observable behaviour of one `retryRequest` call: its outcome, the
chronological list of `sleep` durations (ms), and how many times
`requestFunc` was invoked. -/
structure RetryTrace (α : Type) where
  outcome : RetryOutcome α
  waits : List Nat
  calls : Nat
deriving DecidableEq, Repr

/-- The loop body of `retryRequest` (src/server.js:34-52).  `attempt` is the
loop counter; `remaining` is the number of loop iterations still allowed,
kept equal to `maxRetries - attempt + 1` so that the recursion is structural:
`remaining = 0` is exactly the loop exit condition `attempt > maxRetries`.
`responses n` is what the n-th invocation of `requestFunc` produces. -/
def retryLoop {α : Type} (responses : Nat → RResponse α) (maxRetries : Nat) :
    Nat → Nat → List Nat → Nat → RetryTrace α
  | 0, _, waits, calls => ⟨RetryOutcome.undef, waits.reverse, calls⟩
  | remaining + 1, attempt, waits, calls =>
    match responses attempt with
    | RResponse.ok v => ⟨RetryOutcome.ok v, waits.reverse, calls + 1⟩
    | RResponse.err status retryAfter =>
      if status = some 429 then
        -- `continue` in a JS for loop still runs `attempt++`
        retryLoop responses maxRetries remaining (attempt + 1)
          ((retryAfter.getD 60) * 1000 :: waits) (calls + 1)
      else if attempt = maxRetries then
        ⟨RetryOutcome.thrown status retryAfter, waits.reverse, calls + 1⟩
      else
        retryLoop responses maxRetries remaining (attempt + 1)
          (2 ^ attempt * 1000 :: waits) (calls + 1)

/-- `retryRequest(requestFunc, maxRetries = 3)` (src/server.js:33). -/
def retryRequest {α : Type} (responses : Nat → RResponse α) (maxRetries : Nat := 3) :
    RetryTrace α :=
  retryLoop responses maxRetries maxRetries 1 [] 0

/-- Credentials of one Zendesk account, as supplied in request bodies. -/
structure Creds where
  subdomain : String
  email : String
  token : String
deriving DecidableEq, Repr

/-- A Zendesk user as returned by `GET /api/v2/users/{id}.json`. -/
structure User where
  id : Nat
  name : String
  email : String
  role : String
deriving DecidableEq, Repr

/-- A Zendesk ticket as returned by `GET /api/v2/tickets/{id}.json`;
`tags` is `Option` because the source guards it with `|| []`. -/
structure Ticket where
  id : Nat
  subject : String
  description : String
  status : String
  priority : String
  type : String
  tags : Option (List String)
  requester_id : Nat
deriving DecidableEq, Repr

/-- A ticket comment; `via` models `comment.via?.channel`
(`none` when `via` is absent). -/
structure Comment where
  body : String
  public : Bool
  via : Option String
deriving DecidableEq, Repr

/-- Payload of the user-creation call built in `migrateUser`
(src/server.js:278-285). -/
structure NewUser where
  name : String
  email : String
  role : String
  verified : Bool
deriving DecidableEq, Repr

/-- Payload of the ticket-creation call built in the migrate-ticket handler
(src/server.js:175-188): `requester_id` is attached only when the resolved
id is truthy. -/
structure TicketDraft where
  subject : String
  description : String
  status : String
  priority : String
  type : String
  tags : List String
  requester_id : Option Nat
deriving DecidableEq, Repr

/-- Payload of one comment-append call (src/server.js:320-327). -/
structure CommentDraft where
  body : String
  public : Bool
deriving DecidableEq, Repr

/-- One remote request issued to a Zendesk account, identified by the target
subdomain and the payload the source builds for it. -/
inductive RemoteReq where
  | getTicket (subdomain : String) (ticketId : Nat)
  | getUser (subdomain : String) (userId : Nat)
  | searchUsers (subdomain : String) (email : String)
  | createUser (subdomain : String) (u : NewUser)
  | createTicket (subdomain : String) (d : TicketDraft)
  | updateTicket (subdomain : String) (ticketId : Nat) (c : CommentDraft)
  | listComments (subdomain : String) (ticketId : Nat)
deriving DecidableEq, Repr

/-- A request is a write to the account it addresses exactly when it creates
or mutates a resource there (POST or PUT). -/
def RemoteReq.isWrite : RemoteReq → Bool
  | RemoteReq.createUser _ _ => true
  | RemoteReq.createTicket _ _ => true
  | RemoteReq.updateTicket _ _ _ => true
  | _ => false

/-- A request that writes ticket data (creation or comment append), as
opposed to user-creation writes. -/
def RemoteReq.isTicketWrite : RemoteReq → Bool
  | RemoteReq.createTicket _ _ => true
  | RemoteReq.updateTicket _ _ _ => true
  | _ => false

/-- A user-creation request. -/
def RemoteReq.isCreateUser : RemoteReq → Bool
  | RemoteReq.createUser _ _ => true
  | _ => false

/-- Response environment: the observable result of each wrapped
`retryRequest(() => axios(...))` call at pipeline level.  `none` models the
call ultimately failing (the retried call threw, or `retryRequest` returned
`undefined`, whose subsequent property access throws).  For `searchUsers` and
`listComments` the inner `Option` models `data.users` / `data.comments`
possibly being `undefined` in a successful response. -/
structure Env where
  getTicket : String → Nat → Option Ticket
  getUser : String → Nat → Option User
  searchUsers : String → String → Option (Option (List User))
  createUser : String → NewUser → Option Nat
  createTicket : String → TicketDraft → Option Nat
  updateTicket : String → Nat → CommentDraft → Option Unit
  listComments : String → Nat → Option (Option (List Comment))

/-- The process-wide `userCache` Map, modelled as an association list where
the most recent `set` is at the head. -/
abbrev UserCache : Type := List (String × Nat)

/-- `userCache.get(k)` (also deciding `userCache.has(k)`). -/
def cacheGet (c : UserCache) (k : String) : Option Nat :=
  (List.find? (fun e => e.1 == k) c).map (fun e => e.2)

/-- `userCache.set(k, v)`: the new binding shadows any older one. -/
def cacheSet (c : UserCache) (k : String) (v : Nat) : UserCache :=
  (k, v) :: c

/-- The cache key template literal of src/server.js:243. -/
def userCacheKey (userId : Nat) (source target : Creds) : String :=
  toString userId ++ "-" ++ source.subdomain ++ "-" ++ target.subdomain

/-- The user payload built for the creation call (src/server.js:278-285):
name and email copied, role downgraded from `admin` to `agent`, marked
verified. -/
def newUserOf (user : User) : NewUser :=
  { name := user.name
    email := user.email
    role := if user.role = "admin" then "agent" else user.role
    verified := true }

/-- The "Create new user" step (src/server.js:274-291): issue the creation
call; on success cache and return the new id, on failure the enclosing
catch yields `null` with the cache untouched.  `reqs` are the requests
already issued before this step. -/
def createUserStep (env : Env) (cache : UserCache) (cacheKey : String)
    (target : Creds) (newUser : NewUser) (reqs : List RemoteReq) :
    Option Nat × UserCache × List RemoteReq :=
  match env.createUser target.subdomain newUser with
  | none => (none, cache, reqs ++ [RemoteReq.createUser target.subdomain newUser])
  | some newId =>
    (some newId, cacheSet cache cacheKey newId,
     reqs ++ [RemoteReq.createUser target.subdomain newUser])

/-- The `try` block of `migrateUser` (src/server.js:249-296): fetch the
source user, search the target by email, reuse the first match or create a
new user; any failure is caught and yields `null` (`none`) with the cache
untouched. -/
def migrateUserFetch (env : Env) (cache : UserCache) (cacheKey : String)
    (userId : Nat) (source target : Creds) :
    Option Nat × UserCache × List RemoteReq :=
  match env.getUser source.subdomain userId with
    | none => (none, cache, [RemoteReq.getUser source.subdomain userId])
    | some user =>
      match env.searchUsers target.subdomain user.email with
      | none => (none, cache,
          [RemoteReq.getUser source.subdomain userId,
           RemoteReq.searchUsers target.subdomain user.email])
      | some usersOpt =>
        match usersOpt with
        | some (u0 :: _) =>
          -- `searchResponse.data.users?.length > 0`: take the first match
          (some u0.id, cacheSet cache cacheKey u0.id,
           [RemoteReq.getUser source.subdomain userId,
            RemoteReq.searchUsers target.subdomain user.email])
        | _ =>
          createUserStep env cache cacheKey target (newUserOf user)
            [RemoteReq.getUser source.subdomain userId,
             RemoteReq.searchUsers target.subdomain user.email]

/-- `migrateUser(userId, source, target)` (src/server.js:242-297), returning
the resolved id (`none` = the JS `null`), the cache after the call, and the
remote requests issued: a cache hit returns immediately, otherwise the
`try` block runs. -/
def migrateUser (env : Env) (cache : UserCache) (userId : Nat)
    (source target : Creds) : Option Nat × UserCache × List RemoteReq :=
  let cacheKey := userCacheKey userId source target
  match cacheGet cache cacheKey with
  | some cached => (some cached, cache, [])
  | none => migrateUserFetch env cache cacheKey userId source target

/-- The `for (const comment of comments)` loop of src/server.js:311-336:
returns the append requests issued (one per non-api-channel comment, in
order) and the number of per-comment failures caught by the inner
`try/catch` (which only logs them and moves on). -/
def commentLoop (env : Env) (targetSub : String) (targetTicketId : Nat) :
    List Comment → List RemoteReq × Nat
  | [] => ([], 0)
  | c :: rest =>
    if c.via = some "api" then commentLoop env targetSub targetTicketId rest
    else
      let req := RemoteReq.updateTicket targetSub targetTicketId
        { body := c.body, public := c.public }
      let res := env.updateTicket targetSub targetTicketId
        { body := c.body, public := c.public }
      let tail := commentLoop env targetSub targetTicketId rest
      (req :: tail.1, (if res.isNone then 1 else 0) + tail.2)

/-- Observable behaviour of one `migrateComments` call: the JS return value
(the function body has no `return` statement, so it is always `undefined`,
modelled as `none`), the count in the final `Migrated N comments` log line
(`none` when the comment-list fetch failed and the outer catch skipped it),
and the remote requests issued. -/
structure CommentsResult where
  retVal : Option Nat
  loggedCount : Option Nat
  trace : List RemoteReq
deriving DecidableEq, Repr

/-- `migrateComments(sourceTicketId, targetTicketId, source, target)`
(src/server.js:299-343).  Both the outer and per-comment failures are
caught, so the function never throws. -/
def migrateComments (env : Env) (sourceTicketId targetTicketId : Nat)
    (source target : Creds) : CommentsResult :=
  match env.listComments source.subdomain sourceTicketId with
  | none => ⟨none, none, [RemoteReq.listComments source.subdomain sourceTicketId]⟩
  | some commentsOpt =>
    let comments := commentsOpt.getD []
    let loop := commentLoop env target.subdomain targetTicketId comments
    ⟨none, some comments.length,
      RemoteReq.listComments source.subdomain sourceTicketId :: loop.1⟩

/-- The `options` object of the migrate-ticket request body. -/
structure MigrateOptions where
  dryRun : Bool
  migrateUsers : Bool
  migrateComments : Bool
deriving DecidableEq, Repr

/-- Response of the migrate-ticket handler: the dry-run early return
(src/server.js:191-201), the success response (218-223), or the catch-all
failure response (225-232). -/
inductive MigrateResult where
  | dryRunOk (sourceTicketId : Nat) (subject : String)
  | ok (sourceTicketId targetTicketId : Nat) (subject : String)
  | failed (ticketId : Nat)
deriving DecidableEq, Repr

/-- Step 3 of the handler (src/server.js:174-188): build the ticket payload;
`if (requesterId)` attaches the resolved id only when it is truthy, so both
`null` and `0` are dropped. -/
def buildDraft (sourceTicket : Ticket) (requesterId : Option Nat) : TicketDraft :=
  { subject := sourceTicket.subject
    description := sourceTicket.description
    status := sourceTicket.status
    priority := sourceTicket.priority
    type := sourceTicket.type
    tags := sourceTicket.tags.getD []
    requester_id :=
      match requesterId with
      | some rid => if rid = 0 then none else some rid
      | none => none }

/-- The `POST /api/migrate-ticket` handler (src/server.js:149-233), returning
its response, the cache after the call, and the remote requests issued. -/
def migrateTicket (env : Env) (cache : UserCache) (ticketId : Nat)
    (source target : Creds) (options : MigrateOptions) :
    MigrateResult × UserCache × List RemoteReq :=
  match env.getTicket source.subdomain ticketId with
  | none => (MigrateResult.failed ticketId, cache,
      [RemoteReq.getTicket source.subdomain ticketId])
  | some sourceTicket =>
    let resolved :=
      if options.migrateUsers then
        migrateUser env cache sourceTicket.requester_id source target
      else (none, cache, [])
    let requesterId := resolved.1
    let cache1 := resolved.2.1
    let userTrace := resolved.2.2
    let ticketData := buildDraft sourceTicket requesterId
    let preTrace := RemoteReq.getTicket source.subdomain ticketId :: userTrace
    if options.dryRun then
      (MigrateResult.dryRunOk ticketId sourceTicket.subject, cache1, preTrace)
    else
      match env.createTicket target.subdomain ticketData with
      | none => (MigrateResult.failed ticketId, cache1,
          preTrace ++ [RemoteReq.createTicket target.subdomain ticketData])
      | some newTicketId =>
        if options.migrateComments then
          let cr := migrateComments env ticketId newTicketId source target
          (MigrateResult.ok ticketId newTicketId sourceTicket.subject, cache1,
            preTrace ++ RemoteReq.createTicket target.subdomain ticketData :: cr.trace)
        else
          (MigrateResult.ok ticketId newTicketId sourceTicket.subject, cache1,
            preTrace ++ [RemoteReq.createTicket target.subdomain ticketData])

/-- Body of a `POST /proxy` request; string fields are `Option` so that a
missing field and an empty string are both JS-falsy. -/
structure ProxyBody where
  method : Option String
  url : String
  data : Option String
  subdomain : Option String
  email : Option String
  token : Option String

/-- JS falsiness of an optional string: `undefined` and `""` are falsy. -/
def falsy : Option String → Bool
  | none => true
  | some s => s == ""

/-- Response of the `/proxy` handler: a 400 validation error, a 200 with the
remote body, or the catch branch's error response. -/
inductive ProxyResult where
  | badRequest (msg : String)
  | okResp
  | errResp
deriving DecidableEq, Repr

/-- The `POST /proxy` handler (src/server.js:60-96), returning its response
together with the number of invocations of the wrapped axios call (0 when
validation rejects before reaching `retryRequest`). -/
def proxyHandler {α : Type} (responses : Nat → RResponse α) (b : ProxyBody) :
    ProxyResult × Nat :=
  if falsy b.subdomain || falsy b.email || falsy b.token then
    (ProxyResult.badRequest "Missing credentials", 0)
  else if !(b.url.startsWith "/api/v2/") then
    (ProxyResult.badRequest "Invalid Zendesk API path", 0)
  else
    let r := retryRequest responses 3
    (match r.outcome with
     | RetryOutcome.ok _ => ProxyResult.okResp
     | _ => ProxyResult.errResp, r.calls)

/-! Concrete fixtures used by witnesses and counterexamples. -/

/-- Environment in which every remote call fails. -/
def env0 : Env :=
  { getTicket := fun _ _ => none
    getUser := fun _ _ => none
    searchUsers := fun _ _ => none
    createUser := fun _ _ => none
    createTicket := fun _ _ => none
    updateTicket := fun _ _ _ => none
    listComments := fun _ _ => none }

/-- Sample source-account credentials. -/
def sW : Creds := ⟨"src", "s@e.c", "tok"⟩

/-- Sample target-account credentials. -/
def tW : Creds := ⟨"tgt", "t@e.c", "tok"⟩

/-- Sample source user with role `admin`. -/
def uW : User := ⟨5, "Ann", "ann@e.c", "admin"⟩

/-- Sample source ticket whose requester is `uW`. -/
def tkW : Ticket := ⟨1, "Hello", "d", "open", "high", "question", none, 5⟩

/-- Environment where the source ticket and user exist, no target user
matches the email, and user creation succeeds with id 99. -/
def envCreate : Env :=
  { env0 with
    getTicket := fun _ _ => some tkW
    getUser := fun _ _ => some uW
    searchUsers := fun _ _ => some (some [])
    createUser := fun _ _ => some 99 }

/-- Environment where the source user exists, no target user matches, and
the user-creation call itself fails. -/
def envCreateFails : Env :=
  { env0 with
    getUser := fun _ _ => some uW
    searchUsers := fun _ _ => some (some []) }

/-- A machine-generated comment (channel `api`) and two ordinary comments. -/
def cA : Comment := ⟨"m", true, some "api"⟩

/-- First ordinary comment. -/
def cOne : Comment := ⟨"one", true, some "web"⟩

/-- Second ordinary comment (no `via` object at all). -/
def cTwo : Comment := ⟨"two", false, none⟩

/-- Environment for comment replication: the list fetch yields
`[cA, cOne, cTwo]` and every append succeeds. -/
def envComments : Env :=
  { env0 with
    listComments := fun _ _ => some (some [cA, cOne, cTwo])
    updateTicket := fun _ _ _ => some () }

/-- Environment for a full migration where the append of `cOne` fails and
the append of `cTwo` succeeds. -/
def envCommentFail : Env :=
  { env0 with
    getTicket := fun _ _ => some tkW
    createTicket := fun _ _ => some 77
    listComments := fun _ _ => some (some [cOne, cTwo])
    updateTicket := fun _ _ d => if d.body = "one" then none else some () }

/-- Response stream that is rate-limited on every one of the first three
attempts and would succeed from the fourth invocation on. -/
def rateAll429 : Nat → RResponse Nat := fun n =>
  if n = 1 then RResponse.err (some 429) (some 2)
  else if n ≤ 3 then RResponse.err (some 429) (some 1)
  else RResponse.ok 7

/-- Response stream 429(retry-after=2), 429(retry-after=1), then success. -/
def rateThenOk : Nat → RResponse Nat := fun n =>
  if n = 1 then RResponse.err (some 429) (some 2)
  else if n = 2 then RResponse.err (some 429) (some 1)
  else RResponse.ok 5

/-- Response stream 429 with no retry-after header, then success. -/
def rateNoHeader : Nat → RResponse Nat := fun n =>
  if n = 1 then RResponse.err (some 429) none
  else RResponse.ok 9

/-- Response stream with three distinct non-429 failures, then success. -/
def failThrice : Nat → RResponse Nat := fun n =>
  if n = 1 then RResponse.err (some 500) none
  else if n = 2 then RResponse.err none none
  else if n = 3 then RResponse.err (some 503) (some 7)
  else RResponse.ok 1

/-- Constant successful response stream for the proxy witness. -/
def respsOk : Nat → RResponse Nat := fun _ => RResponse.ok 0

/-- Proxy body with a valid path but no token. -/
def bodyNoToken : ProxyBody :=
  ⟨some "GET", "/api/v2/users.json", none, some "s", some "e", none⟩

/-- The append requests a comment list gives rise to: one ticket update per
comment whose channel is not `api`, in list order, carrying that comment's
body and public flag. -/
def appendReqs (tsub : String) (tid : Nat) (cs : List Comment) : List RemoteReq :=
  cs.filterMap (fun c =>
    if c.via = some "api" then none
    else some (RemoteReq.updateTicket tsub tid { body := c.body, public := c.public }))

/-! Helper lemmas shared by several claims. -/

/-- Looking up a key right after setting it returns the value just set. -/
theorem cacheGet_cacheSet_self (c : UserCache) (k : String) (v : Nat) :
    cacheGet (cacheSet c k v) k = some v := by
  simp [cacheGet, cacheSet, List.find?]

/-- A cache hit returns the cached id immediately, leaves the cache
unchanged and issues no remote request. -/
theorem migrateUser_cacheHit_eq (env : Env) (cache : UserCache) (userId : Nat)
    (s t : Creds) (v : Nat)
    (h : cacheGet cache (userCacheKey userId s t) = some v) :
    migrateUser env cache userId s t = (some v, cache, []) := by
  unfold migrateUser
  simp [h]

/-- The creation step always issues exactly one creation request, appended
to the requests already made. -/
theorem createUserStep_trace (env : Env) (cache : UserCache) (k : String)
    (tgt : Creds) (nu : NewUser) (reqs : List RemoteReq) :
    (createUserStep env cache k tgt nu reqs).2.2 =
      reqs ++ [RemoteReq.createUser tgt.subdomain nu] := by
  unfold createUserStep
  cases env.createUser tgt.subdomain nu <;> simp

/-- When the creation step returns an id, that id was just cached under the
given key. -/
theorem createUserStep_fst_some_cacheGet (env : Env) (cache : UserCache)
    (k : String) (tgt : Creds) (nu : NewUser) (reqs : List RemoteReq) (v : Nat)
    (h : (createUserStep env cache k tgt nu reqs).1 = some v) :
    cacheGet ((createUserStep env cache k tgt nu reqs).2.1) k = some v := by
  revert h
  unfold createUserStep
  cases env.createUser tgt.subdomain nu <;> intro h <;>
    simp_all [cacheGet_cacheSet_self]

/-- When the creation step fails, the cache is left untouched. -/
theorem createUserStep_fst_none_cache (env : Env) (cache : UserCache)
    (k : String) (tgt : Creds) (nu : NewUser) (reqs : List RemoteReq)
    (h : (createUserStep env cache k tgt nu reqs).1 = none) :
    (createUserStep env cache k tgt nu reqs).2.1 = cache := by
  revert h
  unfold createUserStep
  cases env.createUser tgt.subdomain nu <;> intro h <;> simp_all

/-- When the `try` block returns an id, that id was just cached under the
call's cache key. -/
theorem migrateUserFetch_fst_some_cacheGet (env : Env) (cache : UserCache)
    (k : String) (userId : Nat) (s t : Creds) (v : Nat)
    (h : (migrateUserFetch env cache k userId s t).1 = some v) :
    cacheGet ((migrateUserFetch env cache k userId s t).2.1) k = some v := by
  revert h
  unfold migrateUserFetch
  repeat' split
  all_goals intro h
  all_goals try exact createUserStep_fst_some_cacheGet env cache k t _ _ v h
  all_goals simp_all [cacheGet_cacheSet_self]

/-- When `migrateUser` returns an id, that id is cached under the call's
cache key. -/
theorem migrateUser_fst_some_cacheGet (env : Env) (cache : UserCache)
    (userId : Nat) (s t : Creds) (v : Nat)
    (h : (migrateUser env cache userId s t).1 = some v) :
    cacheGet ((migrateUser env cache userId s t).2.1) (userCacheKey userId s t) =
      some v := by
  revert h
  unfold migrateUser
  cases hc : cacheGet cache (userCacheKey userId s t) with
  | some cached => simp only [hc]; intro h; simp_all
  | none =>
    simp only [hc]
    exact migrateUserFetch_fst_some_cacheGet env cache _ userId s t v

/-- The `try` block issues at most one user-creation request. -/
theorem migrateUserFetch_createUser_count (env : Env) (cache : UserCache)
    (k : String) (userId : Nat) (s t : Creds) :
    ((migrateUserFetch env cache k userId s t).2.2).countP
      (fun r => r.isCreateUser) ≤ 1 := by
  unfold migrateUserFetch
  repeat' split
  all_goals simp [RemoteReq.isCreateUser, createUserStep_trace]

/-- A single `migrateUser` call issues at most one user-creation request. -/
theorem migrateUser_createUser_count (env : Env) (cache : UserCache)
    (userId : Nat) (s t : Creds) :
    ((migrateUser env cache userId s t).2.2).countP
      (fun r => r.isCreateUser) ≤ 1 := by
  unfold migrateUser
  cases hc : cacheGet cache (userCacheKey userId s t) with
  | some cached => simp [hc]
  | none => simp only [hc]; exact migrateUserFetch_createUser_count env cache _ userId s t

/-- The `try` block never writes ticket data. -/
theorem migrateUserFetch_ticketWrite_count (env : Env) (cache : UserCache)
    (k : String) (userId : Nat) (s t : Creds) :
    ((migrateUserFetch env cache k userId s t).2.2).countP
      (fun r => r.isTicketWrite) = 0 := by
  unfold migrateUserFetch
  repeat' split
  all_goals simp [RemoteReq.isTicketWrite, createUserStep_trace]

/-- A single `migrateUser` call never writes ticket data. -/
theorem migrateUser_ticketWrite_count (env : Env) (cache : UserCache)
    (userId : Nat) (s t : Creds) :
    ((migrateUser env cache userId s t).2.2).countP
      (fun r => r.isTicketWrite) = 0 := by
  unfold migrateUser
  cases hc : cacheGet cache (userCacheKey userId s t) with
  | some cached => simp [hc]
  | none => simp only [hc]; exact migrateUserFetch_ticketWrite_count env cache _ userId s t

/-- The comment loop issues exactly `appendReqs`, whatever the outcome of
each individual append call. -/
theorem commentLoop_fst_eq (env : Env) (tsub : String) (tid : Nat)
    (cs : List Comment) :
    (commentLoop env tsub tid cs).1 = appendReqs tsub tid cs := by
  induction cs with
  | nil => simp [commentLoop, appendReqs]
  | cons c rest ih =>
    by_cases h : c.via = some "api" <;>
      simp [commentLoop, appendReqs, h, List.filterMap_cons] <;>
      simpa [appendReqs] using ih

/-- When the `try` block returns null, the cache is left untouched. -/
theorem migrateUserFetch_fst_none_cache (env : Env) (cache : UserCache)
    (k : String) (userId : Nat) (s t : Creds)
    (h : (migrateUserFetch env cache k userId s t).1 = none) :
    (migrateUserFetch env cache k userId s t).2.1 = cache := by
  revert h
  unfold migrateUserFetch
  repeat' split
  all_goals intro h
  all_goals try exact createUserStep_fst_none_cache env cache k t _ _ h
  all_goals simp_all

/-- Every entry of the cache after the creation step was already present or
carries the identifier the step returned. -/
theorem createUserStep_mem_cache (env : Env) (cache : UserCache) (k : String)
    (tgt : Creds) (nu : NewUser) (reqs : List RemoteReq) :
    ∀ kk v, (kk, v) ∈ (createUserStep env cache k tgt nu reqs).2.1 →
      (kk, v) ∈ cache ∨ (createUserStep env cache k tgt nu reqs).1 = some v := by
  unfold createUserStep
  cases env.createUser tgt.subdomain nu with
  | none => intro kk v hm; exact Or.inl hm
  | some newId =>
    intro kk v hm
    rcases List.mem_cons.mp hm with he | hmem
    · right
      rw [Prod.mk.injEq] at he
      rw [he.2]
    · exact Or.inl hmem

/-- Every entry of the cache after the `try` block was already present or
carries the identifier the block returned. -/
theorem migrateUserFetch_mem_cache (env : Env) (cache : UserCache)
    (k : String) (userId : Nat) (s t : Creds) :
    ∀ kk v, (kk, v) ∈ (migrateUserFetch env cache k userId s t).2.1 →
      (kk, v) ∈ cache ∨ (migrateUserFetch env cache k userId s t).1 = some v := by
  unfold migrateUserFetch
  repeat' split
  all_goals try exact createUserStep_mem_cache env cache k t _ _
  all_goals intro kk v hm
  all_goals try exact Or.inl hm
  · rcases List.mem_cons.mp hm with he | hmem
    · right
      rw [Prod.mk.injEq] at he
      rw [he.2]
    · exact Or.inl hmem

/-! Claim theorems. -/

/-- C1, counterexample: with `maxRetries = 3` and responses that are
rate-limited (429) on the first three attempts, `retryRequest` does not
retry until the rate limit clears, although a success is available from the
fourth invocation on: the 429 attempts consume the whole retry budget (the
JS `continue` still runs the loop update `attempt++`) and the call ends with
the loop falling through (`undefined`) after waits of 2s, 1s, 1s. -/
theorem retryRequest_429_budget_cex :
    retryRequest rateAll429 3 = ⟨RetryOutcome.undef, [2000, 1000, 1000], 3⟩ ∧
    ¬ (retryRequest rateAll429 3).outcome = RetryOutcome.ok 7 := by
  decide

/-- C1 (amended): a 429 failure makes the policy wait the response's
retry-after duration (60s when the header is absent) and retry without
backoff and without throwing, but the attempt does count toward the retry
budget.  For the response sequence [429(retry-after=2), 429(retry-after=1),
success] the call returns exactly the one success after waits of 2s then 1s,
with all three budget attempts consumed. -/
theorem retryRequest_rate_limit_amended :
    (∀ (responses : Nat → RResponse Nat) (v : Nat),
      responses 1 = RResponse.err (some 429) (some 2) →
      responses 2 = RResponse.err (some 429) (some 1) →
      responses 3 = RResponse.ok v →
      retryRequest responses 3 = ⟨RetryOutcome.ok v, [2000, 1000], 3⟩) ∧
    (∀ (responses : Nat → RResponse Nat) (v : Nat),
      responses 1 = RResponse.err (some 429) none →
      responses 2 = RResponse.ok v →
      retryRequest responses 3 = ⟨RetryOutcome.ok v, [60000], 2⟩) := by
  constructor
  · intro responses v h1 h2 h3
    simp [retryRequest, retryLoop, h1, h2, h3]
  · intro responses v h1 h2
    simp [retryRequest, retryLoop, h1, h2]

/-- C1 witness: the amended behaviour at the concrete response streams. -/
theorem retryRequest_rate_limit_amended_witness :
    retryRequest rateThenOk 3 = ⟨RetryOutcome.ok 5, [2000, 1000], 3⟩ ∧
    retryRequest rateNoHeader 3 = ⟨RetryOutcome.ok 9, [60000], 2⟩ :=
  ⟨retryRequest_rate_limit_amended.1 rateThenOk 5 rfl rfl rfl,
   retryRequest_rate_limit_amended.2 rateNoHeader 9 rfl rfl⟩

/-- C4 (confirmed): with `maxAttempts = 3`, three consecutive non-429
failures propagate the last underlying error after exactly three invocations
of the operation — no fourth attempt, the responses from the fourth
invocation on being unconstrained — and each non-final failure on attempt n
is followed by a wait of 2^n seconds (in ms: 2000 then 4000). -/
theorem retryRequest_backoff_exhaustion {α : Type} (responses : Nat → RResponse α)
    (s₁ s₂ s₃ r₁ r₂ r₃ : Option Nat)
    (h1 : responses 1 = RResponse.err s₁ r₁)
    (h2 : responses 2 = RResponse.err s₂ r₂)
    (h3 : responses 3 = RResponse.err s₃ r₃)
    (n1 : s₁ ≠ some 429) (n2 : s₂ ≠ some 429) (n3 : s₃ ≠ some 429) :
    retryRequest responses 3 =
      ⟨RetryOutcome.thrown s₃ r₃, [2 ^ 1 * 1000, 2 ^ 2 * 1000], 3⟩ := by
  simp [retryRequest, retryLoop, h1, h2, h3, n1, n2, n3]

/-- C4 witness: backoff exhaustion at a concrete response stream. -/
theorem retryRequest_backoff_exhaustion_witness :
    retryRequest failThrice 3 =
      ⟨RetryOutcome.thrown (some 503) (some 7), [2 ^ 1 * 1000, 2 ^ 2 * 1000], 3⟩ :=
  retryRequest_backoff_exhaustion failThrice (some 500) none (some 503)
    none none (some 7) rfl rfl rfl (by decide) (by decide) (by decide)

/-- C2, counterexample: a dry run with `migrateUsers` enabled still performs
a write call to the target account — user resolution runs before the
dry-run check and creates a user there (`envCreate` has no matching target
user and creation succeeds) — so the count of writes in the trace is not
zero even though the dry-run response is returned. -/
theorem migrateTicket_dryRun_write_cex :
    (migrateTicket envCreate [] 1 sW tW ⟨true, true, false⟩).1 =
      MigrateResult.dryRunOk 1 "Hello" ∧
    ¬ ((migrateTicket envCreate [] 1 sW tW ⟨true, true, false⟩).2.2.countP
        (fun r => r.isWrite) = 0) := by
  decide

/-- C2 (amended): for every `migrateTicket` call with `options.dryRun` that
successfully fetches the source ticket, the pipeline performs zero
ticket-write calls to the target (no ticket creation and no comment append)
and returns the dry-run success response carrying the requested ticket id
and the fetched ticket's subject; when `options.migrateUsers` is set, user
resolution still runs before the dry-run check and may create a user in the
target. -/
theorem migrateTicket_dryRun_no_ticket_writes (env : Env) (cache : UserCache)
    (ticketId : Nat) (s t : Creds) (options : MigrateOptions) (tk : Ticket)
    (hdry : options.dryRun = true)
    (hf : env.getTicket s.subdomain ticketId = some tk) :
    (migrateTicket env cache ticketId s t options).1 =
      MigrateResult.dryRunOk ticketId tk.subject ∧
    (migrateTicket env cache ticketId s t options).2.2.countP
      (fun r => r.isTicketWrite) = 0 := by
  have h0 := migrateUser_ticketWrite_count env cache tk.requester_id s t
  rw [List.countP_eq_zero] at h0
  unfold migrateTicket
  cases hm : options.migrateUsers
  · simp [hf, hm, hdry, RemoteReq.isTicketWrite]
  · simp [hf, hm, hdry, RemoteReq.isTicketWrite]
    intro a ha
    simpa [RemoteReq.isTicketWrite] using h0 a ha

/-- C2 witness: the amended dry-run behaviour at a concrete environment. -/
theorem migrateTicket_dryRun_no_ticket_writes_witness :
    (migrateTicket envCreate [] 1 sW tW ⟨true, false, false⟩).1 =
      MigrateResult.dryRunOk 1 "Hello" ∧
    (migrateTicket envCreate [] 1 sW tW ⟨true, false, false⟩).2.2.countP
      (fun r => r.isTicketWrite) = 0 :=
  migrateTicket_dryRun_no_ticket_writes envCreate [] 1 sW tW
    ⟨true, false, false⟩ tkW rfl rfl

/-- C3, counterexample: when the user-creation call fails, nothing is
cached, so calling `migrateUser` twice with the same arguments issues the
user-creation request twice — the claim's at-most-one creation call is
violated. -/
theorem migrateUser_double_creation_cex :
    2 ≤ ((migrateUser envCreateFails [] 5 sW tW).2.2 ++
      (migrateUser envCreateFails
        (migrateUser envCreateFails [] 5 sW tW).2.1 5 sW tW).2.2).countP
      (fun r => r.isCreateUser) := by
  decide

/-- C3 (amended): when the cache already holds the key the cached identifier
is returned immediately with no remote calls; and whenever the first of two
consecutive `migrateUser` calls returns an identifier, the second call hits
the cache — returning the same identifier with no remote calls — so the two
calls together issue at most one user-creation call.  (When the first call
fails and returns null, nothing is cached and the retry may issue a second
creation call, as the counterexample shows.) -/
theorem migrateUser_idempotent_amended (env : Env) (cache : UserCache)
    (userId : Nat) (s t : Creds) :
    (∀ v, cacheGet cache (userCacheKey userId s t) = some v →
      migrateUser env cache userId s t = (some v, cache, [])) ∧
    (∀ v, (migrateUser env cache userId s t).1 = some v →
      migrateUser env (migrateUser env cache userId s t).2.1 userId s t =
        (some v, (migrateUser env cache userId s t).2.1, []) ∧
      ((migrateUser env cache userId s t).2.2 ++
        (migrateUser env (migrateUser env cache userId s t).2.1 userId s t).2.2).countP
        (fun r => r.isCreateUser) ≤ 1) := by
  constructor
  · intro v h
    exact migrateUser_cacheHit_eq env cache userId s t v h
  · intro v h
    have hcached := migrateUser_fst_some_cacheGet env cache userId s t v h
    have hsecond := migrateUser_cacheHit_eq env _ userId s t v hcached
    refine ⟨hsecond, ?_⟩
    rw [hsecond]
    simpa using migrateUser_createUser_count env cache userId s t

/-- C3 witness: the amended idempotence at a concrete environment where the
first call creates (and caches) user 99. -/
theorem migrateUser_idempotent_amended_witness :
    migrateUser envCreate (migrateUser envCreate [] 5 sW tW).2.1 5 sW tW =
      (some 99, (migrateUser envCreate [] 5 sW tW).2.1, []) ∧
    ((migrateUser envCreate [] 5 sW tW).2.2 ++
      (migrateUser envCreate
        (migrateUser envCreate [] 5 sW tW).2.1 5 sW tW).2.2).countP
      (fun r => r.isCreateUser) ≤ 1 :=
  (migrateUser_idempotent_amended envCreate [] 5 sW tW).2 99 (by decide)

/-- C5, counterexample: `migrateComments` contains no return statement, so
even when the fetch succeeds with three comments its JS return value is
`undefined` (`none`), not the count — the count only appears in the final
log line. -/
theorem migrateComments_return_cex :
    (migrateComments envComments 1 2 sW tW).loggedCount = some 3 ∧
    ¬ (migrateComments envComments 1 2 sW tW).retVal = some 3 := by
  decide

/-- C5 (amended): when the comment-list fetch succeeds, `migrateComments`
logs the count of comments fetched from the source (`comments.length`,
after the `|| []` default) but returns no value — the JS function body has
no return statement, so its value is `undefined`. -/
theorem migrateComments_logs_count (env : Env) (sid tid : Nat) (s t : Creds)
    (copt : Option (List Comment))
    (hl : env.listComments s.subdomain sid = some copt) :
    (migrateComments env sid tid s t).loggedCount =
      some (copt.getD []).length ∧
    (migrateComments env sid tid s t).retVal = none := by
  unfold migrateComments
  simp [hl]

/-- C5 witness: the amended behaviour at a concrete environment with three
fetched comments. -/
theorem migrateComments_logs_count_witness :
    (migrateComments envComments 1 2 sW tW).loggedCount = some 3 ∧
    (migrateComments envComments 1 2 sW tW).retVal = none :=
  migrateComments_logs_count envComments 1 2 sW tW
    (some [cA, cOne, cTwo]) rfl

/-- C6 (confirmed): for every fetched comment list the requests issued are
the list fetch followed by exactly one ticket-update (append) per comment
whose channel is not `api`, in original list order, each carrying that
comment's body and public flag. -/
theorem migrateComments_filters_api_channel (env : Env) (sid tid : Nat)
    (s t : Creds) (copt : Option (List Comment))
    (hl : env.listComments s.subdomain sid = some copt) :
    (migrateComments env sid tid s t).trace =
      RemoteReq.listComments s.subdomain sid ::
        appendReqs t.subdomain tid (copt.getD []) := by
  unfold migrateComments
  simp [hl, commentLoop_fst_eq]

/-- C6 witness: a list of one machine-channel comment and two ordinary
comments yields exactly two append calls, in original order. -/
theorem migrateComments_filters_api_channel_witness :
    (migrateComments envComments 1 2 sW tW).trace =
      [RemoteReq.listComments "src" 1,
       RemoteReq.updateTicket "tgt" 2 ⟨"one", true⟩,
       RemoteReq.updateTicket "tgt" 2 ⟨"two", false⟩] := by
  rw [migrateComments_filters_api_channel envComments 1 2 sW tW
    (some [cA, cOne, cTwo]) rfl]
  decide

/-- C7 (confirmed): when `migrateUser` reaches the creation step (cache
miss, source user fetched, no email match in the target), the creation
request carries the source user's name and email, the role `agent` when the
source role is `admin` and the source role unchanged otherwise, and
`verified = true`. -/
theorem migrateUser_role_downgrade (env : Env) (cache : UserCache)
    (userId : Nat) (s t : Creds) (u : User)
    (hc : cacheGet cache (userCacheKey userId s t) = none)
    (hg : env.getUser s.subdomain userId = some u)
    (hs : env.searchUsers t.subdomain u.email = some (some [])) :
    (migrateUser env cache userId s t).2.2 =
      [RemoteReq.getUser s.subdomain userId,
       RemoteReq.searchUsers t.subdomain u.email,
       RemoteReq.createUser t.subdomain
         { name := u.name, email := u.email,
           role := if u.role = "admin" then "agent" else u.role,
           verified := true }] := by
  unfold migrateUser migrateUserFetch
  simp [hc, hg, hs, createUserStep_trace, newUserOf]

/-- C7 witness: an `admin` source user is created in the target as a
verified `agent`. -/
theorem migrateUser_role_downgrade_witness :
    (migrateUser envCreate [] 5 sW tW).2.2 =
      [RemoteReq.getUser "src" 5,
       RemoteReq.searchUsers "tgt" "ann@e.c",
       RemoteReq.createUser "tgt" ⟨"Ann", "ann@e.c", "agent", true⟩] := by
  rw [migrateUser_role_downgrade envCreate [] 5 sW tW uW rfl rfl rfl]
  decide

/-- C8 (confirmed): once the pipeline has fetched the source ticket, created
the target ticket and fetched the comment list, per-comment append failures
are caught inside the loop: the trace still ends with one append request per
non-api comment of the whole list (so a failing append never prevents the
remaining comments from being attempted), and the migration result is the
success response — the hypotheses allow (and the witness uses) an
environment in which an append call fails. -/
theorem migrateTicket_comment_failure_nonfatal (env : Env) (cache : UserCache)
    (ticketId : Nat) (s t : Creds) (options : MigrateOptions) (tk : Ticket)
    (newId : Nat) (copt : Option (List Comment))
    (hdry : options.dryRun = false)
    (hcom : options.migrateComments = true)
    (hf : env.getTicket s.subdomain ticketId = some tk)
    (hc : env.createTicket t.subdomain
        (buildDraft tk
          (if options.migrateUsers then
            (migrateUser env cache tk.requester_id s t).1
          else none)) = some newId)
    (hl : env.listComments s.subdomain ticketId = some copt)
    (hfail : ∃ c ∈ copt.getD [], ¬ c.via = some "api" ∧
        env.updateTicket t.subdomain newId
          { body := c.body, public := c.public } = none) :
    (migrateTicket env cache ticketId s t options).1 =
      MigrateResult.ok ticketId newId tk.subject ∧
    ∃ pre, (migrateTicket env cache ticketId s t options).2.2 =
      pre ++ appendReqs t.subdomain newId (copt.getD []) := by
  unfold migrateTicket migrateComments
  cases hm : options.migrateUsers
  · rw [hm] at hc
    simp at hc
    constructor
    · simp [hf, hm, hdry, hcom, hc, hl]
    · exact ⟨[RemoteReq.getTicket s.subdomain ticketId,
          RemoteReq.createTicket t.subdomain (buildDraft tk none),
          RemoteReq.listComments s.subdomain ticketId],
        by simp [hf, hm, hdry, hcom, hc, hl, commentLoop_fst_eq]⟩
  · rw [hm] at hc
    simp at hc
    constructor
    · simp [hf, hm, hdry, hcom, hc, hl]
    · exact ⟨RemoteReq.getTicket s.subdomain ticketId ::
          ((migrateUser env cache tk.requester_id s t).2.2 ++
            [RemoteReq.createTicket t.subdomain
              (buildDraft tk (migrateUser env cache tk.requester_id s t).1),
             RemoteReq.listComments s.subdomain ticketId]),
        by simp [hf, hm, hdry, hcom, hc, hl, commentLoop_fst_eq]⟩

/-- C8 witness: concrete run in which the append of the first ordinary
comment fails and the second is still attempted, with a successful result. -/
theorem migrateTicket_comment_failure_nonfatal_witness :
    (migrateTicket envCommentFail [] 1 sW tW ⟨false, false, true⟩).1 =
      MigrateResult.ok 1 77 "Hello" ∧
    ∃ pre, (migrateTicket envCommentFail [] 1 sW tW ⟨false, false, true⟩).2.2 =
      pre ++ appendReqs "tgt" 77 [cOne, cTwo] :=
  migrateTicket_comment_failure_nonfatal envCommentFail [] 1 sW tW
    ⟨false, false, true⟩ tkW 77 (some [cOne, cTwo])
    rfl rfl rfl rfl rfl (by decide)

/-- C9 (confirmed): a `/proxy` request with a missing (or empty) subdomain,
email or token, or whose url does not begin with `/api/v2/`, is answered by
a 400 validation-error response and the wrapped axios call is never invoked
(zero remote calls, hence no retry). -/
theorem proxyHandler_validation_no_remote_call {α : Type}
    (responses : Nat → RResponse α) (b : ProxyBody)
    (h : falsy b.subdomain = true ∨ falsy b.email = true ∨
      falsy b.token = true ∨ b.url.startsWith "/api/v2/" = false) :
    (∃ msg, (proxyHandler responses b).1 = ProxyResult.badRequest msg) ∧
    (proxyHandler responses b).2 = 0 := by
  unfold proxyHandler
  by_cases hcred : (falsy b.subdomain || falsy b.email || falsy b.token) = true
  · simp [hcred]
  · have hurl : b.url.startsWith "/api/v2/" = false := by
      rcases h with h | h | h | h
      · exact absurd (by simp [h]) hcred
      · exact absurd (by simp [h]) hcred
      · exact absurd (by simp [h]) hcred
      · exact h
    simp [hcred, hurl]

/-- C9 witness: a request with a valid path but no token is rejected with a
validation error and zero remote calls. -/
theorem proxyHandler_validation_no_remote_call_witness :
    (∃ msg, (proxyHandler respsOk bodyNoToken).1 = ProxyResult.badRequest msg) ∧
    (proxyHandler respsOk bodyNoToken).2 = 0 :=
  proxyHandler_validation_no_remote_call respsOk bodyNoToken
    (Or.inr (Or.inr (Or.inl rfl)))

/-- C10 (confirmed): the user cache only ever receives successfully resolved
identifiers: when `migrateUser` returns null the cache is unchanged — so
repeating the call re-runs the full remote resolution instead of returning a
cached null — and every entry of the post-call cache was either already
present or carries exactly the identifier the call returned. -/
theorem userCache_no_null_insert (env : Env) (cache : UserCache)
    (userId : Nat) (s t : Creds) :
    ((migrateUser env cache userId s t).1 = none →
      (migrateUser env cache userId s t).2.1 = cache ∧
      migrateUser env (migrateUser env cache userId s t).2.1 userId s t =
        migrateUser env cache userId s t) ∧
    (∀ k v, (k, v) ∈ (migrateUser env cache userId s t).2.1 →
      (k, v) ∈ cache ∨ (migrateUser env cache userId s t).1 = some v) := by
  constructor
  · intro h
    have hcache : (migrateUser env cache userId s t).2.1 = cache := by
      revert h
      unfold migrateUser
      cases hc : cacheGet cache (userCacheKey userId s t) with
      | some cached => intro h; simp_all
      | none =>
        simp only [hc]
        exact migrateUserFetch_fst_none_cache env cache _ userId s t
    exact ⟨hcache, by rw [hcache]⟩
  · unfold migrateUser
    cases hc : cacheGet cache (userCacheKey userId s t) with
    | some cached =>
      simp only [hc]
      intro k v hm
      exact Or.inl hm
    | none =>
      simp only [hc]
      exact migrateUserFetch_mem_cache env cache _ userId s t

/-- C10 witness: a failed resolution (source user fetch fails) leaves the
empty cache empty, and repeating the call runs the same resolution again. -/
theorem userCache_no_null_insert_witness :
    (migrateUser env0 [] 5 sW tW).2.1 = [] ∧
    migrateUser env0 (migrateUser env0 [] 5 sW tW).2.1 5 sW tW =
      migrateUser env0 [] 5 sW tW :=
  (userCache_no_null_insert env0 [] 5 sW tW).1 (by decide)
